import Mathlib

/-!
# Phone verification service: session store, QR issuer, verifier, sweep

A shallow embedding of `src/backend/server.js` (the Express handlers and the
periodic clean-up timer) and of the phone formatting code of
`src/frontend/script.js`, followed by theorems about them.

Conventions of the embedding:

* a JavaScript string is a Lean `String`; `str.replace(/\D/g, '')` keeps exactly
  the characters `0`..`9` (`\d` is ASCII-only in JavaScript);
* `Date.now()` is a natural number of milliseconds supplied by the caller of
  each operation; a difference of two timestamps is taken in `Int`;
* the `sessions` map is an insertion-ordered association list of
  `(sessionId, session)` pairs; `Map.get`, `Map.set` and `Map.delete` are
  `Store.get`, `Store.set` and `Store.delete`;
* every handler is a function from the current store (and its inputs) to the
  HTTP response and the store afterwards.
-/

namespace PhoneVerify

/-! ## Data model -/

/-- The session object built in `POST /api/generate-qr` (server.js, lines 58-63). -/
structure Session where
  phone : String
  verified : Bool
  createdAt : Nat
  verifiedAt : Option Nat
  deriving DecidableEq, Repr

/-- The `sessions` map (server.js, line 18), in insertion order. -/
abbrev Store := List (String × Session)

/-- Lookup `sessions.get(id)`. -/
def Store.get : Store → String → Option Session
  | [], _ => none
  | (k, v) :: rest, id => if k = id then some v else Store.get rest id

/-- Update `sessions.set(id, v)`: an existing key keeps its position, a new key goes last. -/
def Store.set : Store → String → Session → Store
  | [], id, v => [(id, v)]
  | (k, w) :: rest, id, v =>
    if k = id then (k, v) :: rest else (k, w) :: Store.set rest id v

/-- Removal `sessions.delete(id)`. -/
def Store.delete (s : Store) (id : String) : Store :=
  s.filter (fun e => decide (e.1 ≠ id))

/-- The keys of a JavaScript `Map` are pairwise distinct. -/
def Store.WF (s : Store) : Prop := (s.map Prod.fst).Nodup

instance (s : Store) : Decidable s.WF := by
  unfold Store.WF; infer_instance

/-- The session time-to-live, `30 * 60 * 1000` milliseconds. -/
def TTL : Int := 30 * 60 * 1000

/-! ## HTTP responses -/

/-- The JSON bodies the handlers send, with the HTTP status of the error bodies.
Every success body is sent with status 200. -/
inductive Response where
  /-- Body `success: true, session_id, qr_code, phone, expires_in` (lines 86-92). -/
  | generated (session_id qr_code phone expires_in : String)
  /-- Body `success: true, phone, verified, verified_at, created_at` (lines 116-122). -/
  | sessionInfo (phone : String) (verified : Bool) (verified_at : Option Nat) (created_at : Nat)
  /-- Body `success: true, message: 'Номер уже подтвержден', phone` (lines 154-158). -/
  | alreadyVerified (phone : String)
  /-- Body `success: true, message: 'Номер успешно подтвержден', phone, verified_at`
  (lines 176-181). -/
  | verifiedNow (phone : String) (verified_at : Nat)
  /-- Body `success: false, error`, sent with `res.status(code)`. -/
  | failure (code : Nat) (error : String)
  deriving DecidableEq, Repr

/-- The `success` field of a response body. -/
def Response.success : Response → Bool
  | .failure _ _ => false
  | _ => true

/-- The 400 answer of `POST /api/generate-qr` (lines 47-50): `InvalidPhone`. -/
def InvalidPhone : Response := .failure 400 "Введите корректный номер телефона (8-15 цифр)"

/-- The 500 answer of `POST /api/generate-qr` (lines 96-99). -/
def QrInternalError : Response := .failure 500 "Ошибка при создании QR-кода"

/-- The 404 answer of `GET /api/session/:sessionId` (lines 110-113): `SessionNotFound`. -/
def StatusSessionNotFound : Response := .failure 404 "Сессия не найдена или устарела"

/-- The 400 answer of `POST /api/verify-scan` to a falsy field (lines 138-141). -/
def MissingData : Response := .failure 400 "Отсутствуют необходимые данные"

/-- The 404 answer of `POST /api/verify-scan` (lines 147-150): `SessionNotFound`. -/
def ConfirmSessionNotFound : Response := .failure 404 "Сессия не найдена"

/-- The 400 answer of `POST /api/verify-scan` (lines 163-166): `PhoneMismatch`. -/
def PhoneMismatch : Response := .failure 400 "Номера не совпадают"

/-! ## Strings -/

/-- The call `str.replace(/\D/g, '')`: drop every character that is not a decimal digit. -/
def stripNonDigits (str : String) : String := ⟨str.data.filter Char.isDigit⟩

/-- Truthiness test `!str` of a string: only the empty string is falsy. -/
def falsy (str : String) : Bool := str.data.isEmpty

/-- The helper `generateSessionId()` (lines 230-232): `t` is what `Date.now()` returned and
`rnd` is `Math.random().toString(36).substr(2, 9)`. -/
def generateSessionId (t : Nat) (rnd : String) : String :=
  "sess_" ++ toString t ++ "_" ++ rnd

/-- The `JSON.stringify` of the QR payload (lines 69-74). The session id and the
phone consist of characters that JSON leaves unescaped. -/
def qrPayload (sessionId phone : String) (timestamp : Nat) : String :=
  "\x7b\"type\":\"phone_verification\",\"session_id\":\"" ++ sessionId ++
    "\",\"phone\":\"" ++ phone ++ "\",\"timestamp\":" ++ toString timestamp ++ "\x7d"

/-! ## `POST /api/generate-qr` -/

/-- What the handler reads from its environment: the three `Date.now()` calls
(in `generateSessionId`, for `createdAt`, for the payload `timestamp`), the
random suffix, and the `qrcode` library's `toDataURL`, which may reject. -/
structure IssueEnv where
  idTime : Nat
  rnd : String
  createdTime : Nat
  stampTime : Nat
  toDataURL : String → Except String String

/-- Handler of `POST /api/generate-qr` with a string `phone` in the body (lines 39-101). -/
def generateQr (env : IssueEnv) (s : Store) (phone : String) : Response × Store :=
  let cleanPhone := stripNonDigits phone
  if falsy cleanPhone ∨ cleanPhone.length < 8 ∨ cleanPhone.length > 15 then
    (InvalidPhone, s)
  else
    let formattedPhone := "+" ++ cleanPhone
    let sessionId := generateSessionId env.idTime env.rnd
    let session : Session :=
      { phone := formattedPhone, verified := false,
        createdAt := env.createdTime, verifiedAt := none }
    let s1 := s.set sessionId session
    let qrData := qrPayload sessionId formattedPhone env.stampTime
    match env.toDataURL qrData with
    | .ok qrCode => (.generated sessionId qrCode formattedPhone "30 минут", s1)
    | .error _ => (QrInternalError, s1)

/-! ## `GET /api/session/:sessionId` -/

/-- Handler of `GET /api/session/:sessionId` (lines 104-130). The handler does not read the clock. -/
def sessionStatus (s : Store) (sessionId : String) : Response × Store :=
  match s.get sessionId with
  | none => (StatusSessionNotFound, s)
  | some session =>
    (.sessionInfo session.phone session.verified session.verifiedAt session.createdAt, s)

/-! ## `POST /api/verify-scan` -/

/-- Handler of `POST /api/verify-scan` with string fields `session_id` and `scanned_phone`
(lines 133-190); `now` is what `Date.now()` returns at line 171. -/
def verifyScan (now : Nat) (s : Store) (session_id scanned_phone : String) :
    Response × Store :=
  if falsy session_id ∨ falsy scanned_phone then (MissingData, s)
  else
    match s.get session_id with
    | none => (ConfirmSessionNotFound, s)
    | some session =>
      if session.verified then (.alreadyVerified session.phone, s)
      else if session.phone ≠ scanned_phone then (PhoneMismatch, s)
      else
        let session1 : Session := { session with verified := true, verifiedAt := some now }
        (.verifiedNow session1.phone now, s.set session_id session1)

/-! ## The clean-up timer and the diagnostic listing -/

/-- The test of line 27: `now - session.createdAt > 30 * 60 * 1000`. -/
def expired (now : Nat) (session : Session) : Bool :=
  decide ((now : Int) - (session.createdAt : Int) > TTL)

/-- The body of the `setInterval` callback (lines 21-36): walk the entries the map
has when the callback starts and delete each expired one by its key. -/
def sweep (now : Nat) (s : Store) : Store :=
  s.foldl (fun m e => if expired now e.2 then m.delete e.1 else m) s

/-- The test of line 198: `now - session.createdAt < 30 * 60 * 1000`. -/
def live (now : Nat) (session : Session) : Bool :=
  decide ((now : Int) - (session.createdAt : Int) < TTL)

/-- One element of the `sessions` array of `GET /api/sessions`; the two dates are
kept as timestamps instead of their `ru-RU` rendering. -/
structure SessionRow where
  session_id : String
  phone : String
  verified : Bool
  created_at : Nat
  verified_at : Option Nat
  age_seconds : Int
  deriving DecidableEq, Repr

/-- The value `Math.round(d / 1000)` for an integer `d`: halves round upwards. -/
def roundSeconds (d : Int) : Int := (d + 500) / 1000

/-- The `sessions` array of `GET /api/sessions` (lines 193-216). -/
def listSessions (now : Nat) (s : Store) : List SessionRow :=
  (s.filter (fun e => live now e.2)).map (fun e =>
    { session_id := e.1, phone := e.2.phone, verified := e.2.verified,
      created_at := e.2.createdAt, verified_at := e.2.verifiedAt,
      age_seconds := roundSeconds ((now : Int) - (e.2.createdAt : Int)) })

/-! ## Runs of the service -/

/-- One request or timer tick, with what it reads from its environment. -/
inductive Action where
  | issue (env : IssueEnv) (phone : String)
  | status (sessionId : String)
  | confirm (now : Nat) (session_id scanned_phone : String)
  | sweep (now : Nat)

/-- The store after one action. -/
def step (s : Store) : Action → Store
  | .issue env phone => (generateQr env s phone).2
  | .status sessionId => (sessionStatus s sessionId).2
  | .confirm now session_id scanned_phone => (verifyScan now s session_id scanned_phone).2
  | .sweep now => sweep now s

/-- The store after a sequence of actions, starting from the empty map. -/
def run (acts : List Action) : Store := acts.foldl step []

/-- The record invariant: `verifiedAt` is set exactly when `verified` is true. -/
def RecordInv (s : Store) : Prop :=
  ∀ id x, s.get id = some x → (x.verifiedAt.isSome = true ↔ x.verified = true)

/-- An action does not reuse a key of the store: an `issue` whose generated
session id is already a key would overwrite the record stored under it. -/
def FreshId (s : Store) : Action → Prop
  | .issue env _ => s.get (generateSessionId env.idTime env.rnd) = none
  | _ => True

/-! ## The phone field of the client (`src/frontend/script.js`) -/

/-- The call `str.slice(a, b)` with non-negative bounds. -/
def slice (str : String) (a b : Nat) : String := ⟨(str.data.take b).drop a⟩

/-- The call `str.slice(a)` with a non-negative bound. -/
def sliceFrom (str : String) (a : Nat) : String := ⟨str.data.drop a⟩

/-- The method `formatPhoneInput(input)` (script.js, lines 27-47): the value of the field
after the call, given its value before. With no digit in the field the method
returns before the assignment of line 46. -/
def formatPhoneInput (value : String) : String :=
  let numbers := stripNonDigits value
  if numbers.length = 0 then value
  else if numbers.length ≤ 3 then
    "+" ++ numbers
  else if numbers.length ≤ 6 then
    "+" ++ slice numbers 0 3 ++ " " ++ sliceFrom numbers 3
  else if numbers.length ≤ 9 then
    "+" ++ slice numbers 0 3 ++ " " ++ slice numbers 3 6 ++ " " ++ sliceFrom numbers 6
  else if numbers.length ≤ 12 then
    "+" ++ slice numbers 0 3 ++ " " ++ slice numbers 3 6 ++ " " ++ slice numbers 6 9 ++ " " ++
      sliceFrom numbers 9
  else
    "+" ++ slice numbers 0 3 ++ " " ++ slice numbers 3 6 ++ " " ++ slice numbers 6 9 ++ " " ++
      slice numbers 9 12 ++ " " ++ slice numbers 12 15

/-- The head of `generateQRCode()` (script.js, lines 49-70): the `phone` of the
request body sent to `/api/generate-qr` for a given field value, or `none` when
the method shows the validation error and sends nothing. -/
def generateQRCodeRequest (value : String) : Option String :=
  let phone := stripNonDigits value
  if falsy phone ∨ phone.length < 8 ∨ phone.length > 15 then none else some phone

instance (s : Store) (a : Action) : Decidable (FreshId s a) := by
  cases a <;> unfold FreshId <;> infer_instance

/-! ## Concrete inputs used in the examples -/

/-- An encoder that resolves on every payload. -/
def sampleToDataURL (payload : String) : Except String String :=
  .ok ("data:image/png;base64," ++ payload)

/-- A request served within one millisecond, with random suffix `k3j9x0q1z`. -/
def sampleEnv : IssueEnv :=
  { idTime := 1700000000000, rnd := "k3j9x0q1z", createdTime := 1700000000000,
    stampTime := 1700000000000, toDataURL := sampleToDataURL }

/-- A request served two minutes after `sampleEnv`, with another random suffix. -/
def otherEnv : IssueEnv :=
  { idTime := 1700000120000, rnd := "zzzzzzzzz", createdTime := 1700000120000,
    stampTime := 1700000120000, toDataURL := sampleToDataURL }

/-- The session id generated under `sampleEnv`. -/
def sampleId : String := "sess_1700000000000_k3j9x0q1z"

/-- The record created by issuing `1234567890` under `sampleEnv`. -/
def pendingSession : Session :=
  { phone := "+1234567890", verified := false, createdAt := 1700000000000, verifiedAt := none }

/-- The store after issuing `1234567890` under `sampleEnv` on an empty map. -/
def pendingStore : Store := [(sampleId, pendingSession)]

/-- The record `pendingSession` after a confirmation one minute later. -/
def verifiedSession : Session :=
  { phone := "+1234567890", verified := true, createdAt := 1700000000000,
    verifiedAt := some 1700000060000 }

/-- The store `pendingStore` after that confirmation. -/
def verifiedStore : Store := [(sampleId, verifiedSession)]

/-- Thirty-one minutes after `pendingSession` was created. -/
def staleNow : Nat := 1700001860000

/-- A store with one record created at 1700000000000 and one at 1700001000000. -/
def mixedStore : Store :=
  [("sess_1700000000000_aaaaaaaaa",
      { phone := "+1234567890", verified := false, createdAt := 1700000000000,
        verifiedAt := none }),
   ("sess_1700001000000_bbbbbbbbb",
      { phone := "+79123456789", verified := true, createdAt := 1700001000000,
        verifiedAt := some 1700001030000 })]

/-! ## Lemmas on the store -/

theorem Store.get_set_same (s : Store) (id : String) (v : Session) :
    (s.set id v).get id = some v := by
  induction s with
  | nil => simp [Store.set, Store.get]
  | cons e rest ih =>
    obtain ⟨k, w⟩ := e
    by_cases h : k = id
    · simp [Store.set, Store.get, h]
    · simp [Store.set, Store.get, h, ih]

theorem Store.get_set_ne (s : Store) (id id' : String) (v : Session) (h : id' ≠ id) :
    (s.set id v).get id' = s.get id' := by
  induction s with
  | nil =>
    have h' : ¬ id = id' := fun e => h e.symm
    simp [Store.set, Store.get, h']
  | cons e rest ih =>
    obtain ⟨k, w⟩ := e
    by_cases hk : k = id
    · have h' : ¬ id = id' := fun e => h e.symm
      subst hk
      simp [Store.set, Store.get, h']
    · by_cases hk' : k = id'
      · subst hk'
        simp [Store.set, Store.get, hk]
      · simp [Store.set, Store.get, hk, hk', ih]

theorem Store.get_set (s : Store) (id id' : String) (v : Session) :
    (s.set id v).get id' = if id' = id then some v else s.get id' := by
  by_cases h : id' = id
  · subst h; simp [Store.get_set_same]
  · simp [h, Store.get_set_ne s id id' v h]

theorem Store.get_delete (s : Store) (id id' : String) :
    (s.delete id).get id' = if id' = id then none else s.get id' := by
  induction s with
  | nil => simp [Store.delete, Store.get]
  | cons e rest ih =>
    obtain ⟨k, w⟩ := e
    unfold Store.delete at ih ⊢
    by_cases hk : k = id
    · subst hk
      by_cases h : id' = k
      · subst h; simpa [List.filter, Store.get] using ih
      · have h' : ¬ k = id' := fun e => h e.symm
        simpa [List.filter, Store.get, h, h'] using ih
    · by_cases h : id' = id
      · subst h
        simpa [List.filter, Store.get, hk] using ih
      · by_cases hk' : k = id'
        · simp [List.filter, Store.get, hk, hk', h]
        · simpa [List.filter, Store.get, hk, hk', h] using ih

theorem Store.mem_of_get {s : Store} {id : String} {x : Session} (h : s.get id = some x) :
    (id, x) ∈ s := by
  induction s with
  | nil => simp [Store.get] at h
  | cons e rest ih =>
    obtain ⟨k, w⟩ := e
    by_cases hk : k = id
    · simp [Store.get, hk] at h
      simp [hk, h]
    · simp [Store.get, hk] at h
      exact List.mem_cons_of_mem _ (ih h)

theorem Store.get_of_mem {s : Store} (hs : s.WF) {id : String} {x : Session}
    (h : (id, x) ∈ s) : s.get id = some x := by
  induction s with
  | nil => simp at h
  | cons e rest ih =>
    obtain ⟨k, w⟩ := e
    unfold Store.WF at hs ih
    simp only [List.map_cons, List.nodup_cons] at hs
    rcases List.mem_cons.mp h with heq | hmem
    · cases heq
      simp [Store.get]
    · have hk : k ≠ id := by
        intro e
        subst e
        exact hs.1 (List.mem_map_of_mem Prod.fst hmem)
      simp [Store.get, hk, ih hs.2 hmem]

/-- The clean-up loop, on any list of visited entries: a key survives exactly
when no visited entry with that key is expired. -/
theorem get_sweepLoop (now : Nat) (l : List (String × Session)) (m : Store) (id : String) :
    (l.foldl (fun m e => if expired now e.2 then Store.delete m e.1 else m) m).get id =
      if l.any (fun e => decide (e.1 = id) && expired now e.2) then none else m.get id := by
  induction l generalizing m with
  | nil => simp
  | cons e rest ih =>
    obtain ⟨k, w⟩ := e
    simp only [List.foldl_cons, List.any_cons]
    rw [ih]
    by_cases hany : rest.any (fun e => decide (e.1 = id) && expired now e.2) = true
    · simp [hany]
    · by_cases hx : expired now w = true
      · by_cases hk : k = id
        · subst hk; simp [hany, hx, Store.get_delete]
        · have hk' : ¬ id = k := fun e => hk e.symm
          simp [hany, hx, hk, hk', Store.get_delete]
      · simp [hany, hx]

/-- On a well-formed store the clean-up keeps exactly the unexpired records. -/
theorem get_sweep (now : Nat) (s : Store) (hs : s.WF) (id : String) :
    (sweep now s).get id =
      match s.get id with
      | some x => if expired now x then none else some x
      | none => none := by
  unfold sweep
  rw [get_sweepLoop]
  cases hget : s.get id with
  | none =>
    have : s.any (fun e => decide (e.1 = id) && expired now e.2) = false := by
      rw [Bool.eq_false_iff]
      intro hany
      rw [List.any_eq_true] at hany
      obtain ⟨⟨k, w⟩, hmem, hcond⟩ := hany
      simp only [Bool.and_eq_true, decide_eq_true_eq] at hcond
      obtain ⟨hk, _⟩ := hcond
      subst hk
      rw [Store.get_of_mem hs hmem] at hget
      cases hget
    simp [this]
  | some x =>
    by_cases hx : expired now x = true
    · have : s.any (fun e => decide (e.1 = id) && expired now e.2) = true := by
        rw [List.any_eq_true]
        exact ⟨(id, x), Store.mem_of_get hget, by simp [hx]⟩
      simp [this, hx]
    · have : s.any (fun e => decide (e.1 = id) && expired now e.2) = false := by
        rw [Bool.eq_false_iff]
        intro hany
        rw [List.any_eq_true] at hany
        obtain ⟨⟨k, w⟩, hmem, hcond⟩ := hany
        simp only [Bool.and_eq_true, decide_eq_true_eq] at hcond
        obtain ⟨hk, hw⟩ := hcond
        subst hk
        rw [Store.get_of_mem hs hmem] at hget
        cases hget
        exact hx hw
      simp [this, hx]

/-! ## Lemmas on the clean-up and on well-formed stores -/

theorem get_sweep_some {now : Nat} {s : Store} {id : String} {x : Session}
    (h : (sweep now s).get id = some x) : s.get id = some x := by
  unfold sweep at h
  rw [get_sweepLoop] at h
  split_ifs at h
  exact h

theorem Store.get_eq_none_iff (s : Store) (id : String) :
    s.get id = none ↔ id ∉ s.map Prod.fst := by
  induction s with
  | nil => simp [Store.get]
  | cons e rest ih =>
    obtain ⟨k, w⟩ := e
    by_cases hk : k = id
    · simp [Store.get, hk]
    · have hk' : ¬ id = k := fun e => hk e.symm
      simp only [Store.get, hk, if_false, ih]
      simp [hk']

theorem Store.WF_delete {s : Store} (hs : s.WF) (id : String) : (s.delete id).WF := by
  unfold Store.WF Store.delete at *
  exact hs.sublist ((List.filter_sublist s).map Prod.fst)

theorem Store.map_fst_set (s : Store) (id : String) (v : Session) :
    (s.set id v).map Prod.fst =
      if id ∈ s.map Prod.fst then s.map Prod.fst else s.map Prod.fst ++ [id] := by
  induction s with
  | nil => simp [Store.set]
  | cons e rest ih =>
    obtain ⟨k, w⟩ := e
    by_cases hk : k = id
    · subst hk; simp [Store.set]
    · have hk' : ¬ id = k := fun e => hk e.symm
      simp only [Store.set, hk, if_false, List.map_cons, ih, List.mem_cons, hk', false_or]
      split_ifs <;> simp

theorem Store.WF_set {s : Store} (hs : s.WF) (id : String) (v : Session) : (s.set id v).WF := by
  unfold Store.WF at *
  rw [Store.map_fst_set]
  split_ifs with h
  · exact hs
  · rw [List.nodup_append]
    refine ⟨hs, List.nodup_singleton id, ?_⟩
    intro a ha hb
    simp only [List.mem_singleton] at hb
    subst hb
    exact h ha

theorem WF_sweepLoop (now : Nat) (l : List (String × Session)) (m : Store) (hm : m.WF) :
    (l.foldl (fun m e => if expired now e.2 then Store.delete m e.1 else m) m).WF := by
  induction l generalizing m with
  | nil => exact hm
  | cons e rest ih =>
    simp only [List.foldl_cons]
    split_ifs
    · exact ih _ (Store.WF_delete hm e.1)
    · exact ih _ hm

/-! ## Lemmas on strings -/

theorem falsy_iff (str : String) : falsy str = true ↔ str = "" := by
  obtain ⟨l⟩ := str
  cases l with
  | nil => simp [falsy]
  | cons c cs =>
    simp only [falsy, List.isEmpty_cons, Bool.false_eq_true, false_iff]
    intro h
    have := congrArg String.data h
    simp at this

theorem falsy_append (a b : String) : falsy (a ++ b) = (falsy a && falsy b) := by
  obtain ⟨l⟩ := a
  obtain ⟨m⟩ := b
  cases l <;> cases m <;> simp [falsy, String.data_append]

theorem falsy_generateSessionId (t : Nat) (rnd : String) :
    falsy (generateSessionId t rnd) = false := by
  unfold generateSessionId
  rw [falsy_append, falsy_append, falsy_append]
  have : falsy "sess_" = false := by decide
  simp [this]

theorem falsy_plus (str : String) : falsy ("+" ++ str) = false := by
  rw [falsy_append]
  have : falsy "+" = false := by decide
  simp [this]

theorem length_stripNonDigits (str : String) :
    (stripNonDigits str).length = str.data.countP Char.isDigit := by
  simp [stripNonDigits, String.length, List.countP_eq_length_filter]

theorem plus_append (str : String) : "+" ++ str = ⟨'+' :: str.data⟩ := by
  rw [String.ext_iff]
  simp [String.data_append]

theorem drop_take_append_drop_of_le {α : Type} (l : List α) (a b : Nat) (h : a ≤ b) :
    (l.take b).drop a ++ l.drop b = l.drop a := by
  rw [List.drop_take]
  have hb : b = a + (b - a) := by omega
  conv_lhs => rw [hb]
  simp

theorem drop_take_append_drop_take {α : Type} (l : List α) (a b c : Nat) (hab : a ≤ b)
    (hbc : b ≤ c) : (l.take b).drop a ++ (l.take c).drop b = (l.take c).drop a := by
  have h := drop_take_append_drop_of_le (l.take c) a b hab
  rwa [List.take_take, Nat.min_eq_left hbc] at h

/-- After `formatPhoneInput` the field holds the first fifteen digits of its
former value, and nothing else that is a digit. -/
theorem stripNonDigits_formatPhoneInput (value : String) :
    stripNonDigits (formatPhoneInput value) = ⟨(stripNonDigits value).data.take 15⟩ := by
  unfold formatPhoneInput
  simp only
  generalize hn : stripNonDigits value = numbers
  have hall : ∀ c ∈ numbers.data, Char.isDigit c = true := by
    intro c hc
    rw [← hn] at hc
    exact (List.mem_filter.mp hc).2
  have hself : numbers.data.filter Char.isDigit = numbers.data := List.filter_eq_self.mpr hall
  have htk : ∀ b, (numbers.data.take b).filter Char.isDigit = numbers.data.take b := by
    intro b
    rw [List.filter_eq_self]
    intro c hc
    exact hall c (List.mem_of_mem_take hc)
  have hsl : ∀ a b, ((numbers.data.take b).drop a).filter Char.isDigit =
      (numbers.data.take b).drop a := by
    intro a b
    rw [List.filter_eq_self]
    intro c hc
    exact hall c (List.mem_of_mem_take (List.mem_of_mem_drop hc))
  have hdr : ∀ a, (numbers.data.drop a).filter Char.isDigit = numbers.data.drop a := by
    intro a
    rw [List.filter_eq_self]
    intro c hc
    exact hall c (List.mem_of_mem_drop hc)
  have hlen : numbers.length = numbers.data.length := rfl
  split_ifs with h0 h3 h6 h9 h12
  · rw [hn, String.ext_iff]
    simp only
    rw [List.take_of_length_le (by omega)]
  · rw [String.ext_iff]
    simp [stripNonDigits, hself]
    omega
  · rw [String.ext_iff]
    simp only [stripNonDigits, slice, sliceFrom, String.data_append, List.filter_append, hsl, hdr,
      htk, List.drop_zero]
    simp only [List.filter, show Char.isDigit '+' = false by decide,
      show Char.isDigit ' ' = false by decide, List.nil_append, List.append_assoc]
    rw [List.take_append_drop, List.take_of_length_le (by omega)]
  · rw [String.ext_iff]
    simp only [stripNonDigits, slice, sliceFrom, String.data_append, List.filter_append, hsl, hdr,
      htk, List.drop_zero]
    simp only [List.filter, show Char.isDigit '+' = false by decide,
      show Char.isDigit ' ' = false by decide, List.nil_append, List.append_assoc]
    rw [drop_take_append_drop_of_le _ 3 6 (by omega), List.take_append_drop,
      List.take_of_length_le (by omega)]
  · rw [String.ext_iff]
    simp only [stripNonDigits, slice, sliceFrom, String.data_append, List.filter_append, hsl, hdr,
      htk, List.drop_zero]
    simp only [List.filter, show Char.isDigit '+' = false by decide,
      show Char.isDigit ' ' = false by decide, List.nil_append, List.append_assoc]
    rw [drop_take_append_drop_of_le _ 6 9 (by omega), drop_take_append_drop_of_le _ 3 6 (by omega),
      List.take_append_drop, List.take_of_length_le (by omega)]
  · rw [String.ext_iff]
    simp only [stripNonDigits, slice, sliceFrom, String.data_append, List.filter_append, hsl, hdr,
      htk, List.drop_zero]
    simp only [List.filter, show Char.isDigit '+' = false by decide,
      show Char.isDigit ' ' = false by decide, List.nil_append, List.append_assoc]
    rw [drop_take_append_drop_take _ 9 12 15 (by omega) (by omega),
      drop_take_append_drop_take _ 6 9 15 (by omega) (by omega),
      drop_take_append_drop_take _ 3 6 15 (by omega) (by omega)]
    have h := drop_take_append_drop_take numbers.data 0 3 15 (by omega) (by omega)
    simpa using h

/-! ## Lemmas on the handlers -/

theorem generateQr_invalid (env : IssueEnv) (s : Store) (phone : String)
    (h : phone.data.countP Char.isDigit < 8 ∨ 15 < phone.data.countP Char.isDigit) :
    generateQr env s phone = (InvalidPhone, s) := by
  unfold generateQr
  simp only [length_stripNonDigits]
  have : falsy (stripNonDigits phone) = true ∨ phone.data.countP Char.isDigit < 8 ∨
      phone.data.countP Char.isDigit > 15 := Or.inr h
  simp [this]

theorem generateQr_valid (env : IssueEnv) (s : Store) (phone : String)
    (hlo : 8 ≤ phone.data.countP Char.isDigit) (hhi : phone.data.countP Char.isDigit ≤ 15) :
    generateQr env s phone =
      (match env.toDataURL (qrPayload (generateSessionId env.idTime env.rnd)
          ("+" ++ stripNonDigits phone) env.stampTime) with
        | .ok qrCode => Response.generated (generateSessionId env.idTime env.rnd) qrCode
            ("+" ++ stripNonDigits phone) "30 минут"
        | .error _ => QrInternalError,
       s.set (generateSessionId env.idTime env.rnd)
        { phone := "+" ++ stripNonDigits phone, verified := false,
          createdAt := env.createdTime, verifiedAt := none }) := by
  unfold generateQr
  simp only [length_stripNonDigits]
  have hf : falsy (stripNonDigits phone) = false := by
    cases hfa : falsy (stripNonDigits phone) with
    | false => rfl
    | true =>
      rw [falsy_iff] at hfa
      have := length_stripNonDigits phone
      rw [hfa] at this
      simp at this
      omega
  have : ¬ (falsy (stripNonDigits phone) = true ∨ phone.data.countP Char.isDigit < 8 ∨
      phone.data.countP Char.isDigit > 15) := by
    rw [hf]; simp; omega
  rw [if_neg this]
  cases env.toDataURL (qrPayload (generateSessionId env.idTime env.rnd)
          ("+" ++ stripNonDigits phone) env.stampTime) <;> rfl

theorem generateQr_store (env : IssueEnv) (s : Store) (phone : String) :
    (generateQr env s phone).2 = s ∨
      (generateQr env s phone).2 = s.set (generateSessionId env.idTime env.rnd)
        { phone := "+" ++ stripNonDigits phone, verified := false,
          createdAt := env.createdTime, verifiedAt := none } := by
  by_cases hbad : phone.data.countP Char.isDigit < 8 ∨ 15 < phone.data.countP Char.isDigit
  · left; rw [generateQr_invalid env s phone hbad]
  · right; rw [generateQr_valid env s phone (by omega) (by omega)]

theorem sessionStatus_store (s : Store) (sessionId : String) :
    (sessionStatus s sessionId).2 = s := by
  unfold sessionStatus
  cases s.get sessionId <;> rfl

theorem verifyScan_missing (now : Nat) (s : Store) (session_id scanned_phone : String)
    (h : session_id = "" ∨ scanned_phone = "") :
    verifyScan now s session_id scanned_phone = (MissingData, s) := by
  unfold verifyScan
  have : falsy session_id = true ∨ falsy scanned_phone = true := by
    simpa [falsy_iff] using h
  simp [this]

theorem verifyScan_present (now : Nat) (s : Store) (session_id scanned_phone : String)
    (h : ¬ (session_id = "" ∨ scanned_phone = "")) :
    verifyScan now s session_id scanned_phone =
      match s.get session_id with
      | none => (ConfirmSessionNotFound, s)
      | some session =>
        if session.verified then (.alreadyVerified session.phone, s)
        else if session.phone ≠ scanned_phone then (PhoneMismatch, s)
        else (.verifiedNow session.phone now,
          s.set session_id { session with verified := true, verifiedAt := some now }) := by
  unfold verifyScan
  have : ¬ (falsy session_id = true ∨ falsy scanned_phone = true) := by
    simpa [falsy_iff] using h
  rw [if_neg this]

theorem verifyScan_store (now : Nat) (s : Store) (session_id scanned_phone : String) :
    (verifyScan now s session_id scanned_phone).2 = s ∨
      ∃ x, s.get session_id = some x ∧ x.verified = false ∧
        (verifyScan now s session_id scanned_phone).2 =
          s.set session_id { x with verified := true, verifiedAt := some now } := by
  by_cases h : session_id = "" ∨ scanned_phone = ""
  · left; rw [verifyScan_missing now s _ _ h]
  · rw [verifyScan_present now s _ _ h]
    cases hg : s.get session_id with
    | none => left; rfl
    | some x =>
      simp only
      split_ifs with hv hm
      · left; rfl
      · left; rfl
      · right
        exact ⟨x, rfl, by simpa using hv, rfl⟩

/-! ## Lemmas on runs -/

theorem WF_step (s : Store) (a : Action) (hs : s.WF) : (step s a).WF := by
  cases a with
  | issue env phone =>
    simp only [step]
    rcases generateQr_store env s phone with h | h
    · rw [h]; exact hs
    · rw [h]; exact Store.WF_set hs _ _
  | status sessionId =>
    simp only [step, sessionStatus_store]
    exact hs
  | confirm now session_id scanned_phone =>
    simp only [step]
    rcases verifyScan_store now s session_id scanned_phone with h | ⟨x0, _, _, h⟩
    · rw [h]; exact hs
    · rw [h]; exact Store.WF_set hs _ _
  | sweep now => exact WF_sweepLoop now s s hs

/-- Every store a run of the service produces has pairwise distinct keys. -/
theorem WF_run (acts : List Action) : (run acts).WF := by
  have key : ∀ (l : List Action) (s : Store), s.WF → (l.foldl step s).WF := by
    intro l
    induction l with
    | nil => intro s hs; exact hs
    | cons a rest ih => intro s hs; exact ih (step s a) (WF_step s a hs)
  exact key acts [] (by simp [Store.WF])

theorem recordInv_step (s : Store) (a : Action) (h : RecordInv s) : RecordInv (step s a) := by
  intro id x hx
  cases a with
  | issue env phone =>
    simp only [step] at hx
    rcases generateQr_store env s phone with hs | hs
    · rw [hs] at hx; exact h id x hx
    · rw [hs, Store.get_set] at hx
      split_ifs at hx with hid
      · cases hx; simp
      · exact h id x hx
  | status sessionId =>
    simp only [step, sessionStatus_store] at hx
    exact h id x hx
  | confirm now session_id scanned_phone =>
    simp only [step] at hx
    rcases verifyScan_store now s session_id scanned_phone with hs | ⟨x0, _, _, hs⟩
    · rw [hs] at hx; exact h id x hx
    · rw [hs, Store.get_set] at hx
      split_ifs at hx with hid
      · cases hx; simp
      · exact h id x hx
  | sweep now =>
    simp only [step] at hx
    exact h id x (get_sweep_some hx)

theorem recordInv_foldl (acts : List Action) (s : Store) (h : RecordInv s) :
    RecordInv (acts.foldl step s) := by
  induction acts generalizing s with
  | nil => exact h
  | cons a rest ih => exact ih (step s a) (recordInv_step s a h)

theorem recordInv_run (acts : List Action) : RecordInv (run acts) :=
  recordInv_foldl acts [] (by intro id x hx; simp [Store.get] at hx)

theorem step_keeps_record (s : Store) (a : Action) (hfresh : FreshId s a) (id : String)
    (x x' : Session) (hx : s.get id = some x) (hx' : (step s a).get id = some x') :
    x'.phone = x.phone ∧ x'.createdAt = x.createdAt ∧ (x.verified = true → x'.verified = true) := by
  have same : s.get id = some x' → x'.phone = x.phone ∧ x'.createdAt = x.createdAt ∧
      (x.verified = true → x'.verified = true) := by
    intro h'
    rw [hx] at h'
    cases h'
    exact ⟨rfl, rfl, fun hv => hv⟩
  cases a with
  | issue env phone =>
    simp only [step] at hx'
    rcases generateQr_store env s phone with hs | hs
    · rw [hs] at hx'; exact same hx'
    · rw [hs, Store.get_set] at hx'
      split_ifs at hx' with hid
      · subst hid
        simp only [FreshId] at hfresh
        rw [hfresh] at hx
        cases hx
      · exact same hx'
  | status sessionId =>
    simp only [step, sessionStatus_store] at hx'
    exact same hx'
  | confirm now session_id scanned_phone =>
    simp only [step] at hx'
    rcases verifyScan_store now s session_id scanned_phone with hs | ⟨x0, hx0, _, hs⟩
    · rw [hs] at hx'; exact same hx'
    · rw [hs, Store.get_set] at hx'
      split_ifs at hx' with hid
      · subst hid
        rw [hx] at hx0
        cases hx0
        cases hx'
        simp
      · exact same hx'
  | sweep now =>
    simp only [step] at hx'
    exact same (get_sweep_some hx')

/-! ## Expiry on the read paths -/

/-- Claim C1, evaluated on the code: a session issued at 1700000000000 is, thirty-one
minutes later and before the clean-up has run, past the TTL (`expired`) and left
out of the diagnostic listing (`live` is false, `listSessions` is empty), yet
`GET /api/session/:sessionId` answers it with success and `POST /api/verify-scan`
confirms it; the clean-up run at that instant would have removed it. -/
theorem stale_session_is_served :
    (generateQr sampleEnv [] "1234567890").2 = pendingStore ∧
      expired staleNow pendingSession = true ∧
      live staleNow pendingSession = false ∧
      listSessions staleNow pendingStore = [] ∧
      sweep staleNow pendingStore = [] ∧
      sessionStatus pendingStore sampleId =
        (.sessionInfo "+1234567890" false none 1700000000000, pendingStore) ∧
      verifyScan staleNow pendingStore sampleId "+1234567890" =
        (.verifiedNow "+1234567890" staleNow,
          [(sampleId, { pendingSession with verified := true, verifiedAt := some staleNow })]) := by
  decide

/-! ## Issuing -/

/-- Claim C2: for every phone string with 8 to 15 digit characters, and an encoder
that resolves on the payload, `POST /api/generate-qr` answers with success, the
returned phone is `+` followed by the digits of the input in their order, and the
store then holds under the returned session id a record with that phone,
`verified = false` and `verifiedAt` absent. -/
theorem issue_accepts_valid_digit_count (env : IssueEnv) (s : Store) (phone qrCode : String)
    (hlo : 8 ≤ phone.data.countP Char.isDigit) (hhi : phone.data.countP Char.isDigit ≤ 15)
    (hqr : env.toDataURL (qrPayload (generateSessionId env.idTime env.rnd)
      ⟨'+' :: phone.data.filter Char.isDigit⟩ env.stampTime) = .ok qrCode) :
    (generateQr env s phone).1 =
        .generated (generateSessionId env.idTime env.rnd) qrCode
          ⟨'+' :: phone.data.filter Char.isDigit⟩ "30 минут" ∧
      (generateQr env s phone).1.success = true ∧
      (generateQr env s phone).2.get (generateSessionId env.idTime env.rnd) =
        some { phone := ⟨'+' :: phone.data.filter Char.isDigit⟩, verified := false,
               createdAt := env.createdTime, verifiedAt := none } := by
  rw [generateQr_valid env s phone hlo hhi]
  have hp : "+" ++ stripNonDigits phone = ⟨'+' :: phone.data.filter Char.isDigit⟩ := by
    rw [plus_append]; rfl
  rw [hp, hqr]
  exact ⟨rfl, rfl, Store.get_set_same _ _ _⟩

theorem issue_accepts_valid_digit_count_witness :
    (generateQr sampleEnv [] "+7 (912) 345-67-89").1 =
        .generated "sess_1700000000000_k3j9x0q1z"
          "data:image/png;base64,\x7b\"type\":\"phone_verification\",\"session_id\":\"sess_1700000000000_k3j9x0q1z\",\"phone\":\"+79123456789\",\"timestamp\":1700000000000\x7d"
          "+79123456789" "30 минут" ∧
      (generateQr sampleEnv [] "+7 (912) 345-67-89").1.success = true ∧
      (generateQr sampleEnv [] "+7 (912) 345-67-89").2.get "sess_1700000000000_k3j9x0q1z" =
        some { phone := "+79123456789", verified := false,
               createdAt := 1700000000000, verifiedAt := none } :=
  issue_accepts_valid_digit_count sampleEnv [] "+7 (912) 345-67-89" _ (by decide) (by decide) rfl

/-- Claim C3: for every phone string with fewer than 8 or more than 15 digit
characters, `POST /api/generate-qr` answers `InvalidPhone` (status 400,
`success: false`) and leaves the store as it was. -/
theorem issue_rejects_bad_digit_count (env : IssueEnv) (s : Store) (phone : String)
    (h : phone.data.countP Char.isDigit < 8 ∨ 15 < phone.data.countP Char.isDigit) :
    generateQr env s phone =
        (Response.failure 400 "Введите корректный номер телефона (8-15 цифр)", s) ∧
      (generateQr env s phone).1 = InvalidPhone ∧
      (generateQr env s phone).1.success = false := by
  rw [generateQr_invalid env s phone h]
  exact ⟨rfl, rfl, rfl⟩

theorem issue_rejects_bad_digit_count_witness :
    ("12-34-567".data.countP Char.isDigit < 8 ∨ 15 < "12-34-567".data.countP Char.isDigit) ∧
      (generateQr sampleEnv pendingStore "12-34-567" =
          (Response.failure 400 "Введите корректный номер телефона (8-15 цифр)", pendingStore) ∧
        (generateQr sampleEnv pendingStore "12-34-567").1 = InvalidPhone ∧
        (generateQr sampleEnv pendingStore "12-34-567").1.success = false) :=
  ⟨by decide, issue_rejects_bad_digit_count sampleEnv pendingStore "12-34-567" (by decide)⟩

/-! ## Confirming -/

/-- Claim C4, as stated, fails: an empty `scanned_phone` differs from the stored
phone of an unverified session, and the handler answers it with the missing-data
body of lines 138-141, not with `PhoneMismatch`. -/
theorem empty_scan_is_not_phone_mismatch :
    pendingStore.get sampleId = some pendingSession ∧
      pendingSession.verified = false ∧
      "" ≠ pendingSession.phone ∧
      verifyScan 1700000060000 pendingStore sampleId "" = (MissingData, pendingStore) ∧
      MissingData ≠ PhoneMismatch := by
  decide

/-- Claim C4, amended: for every store with an unverified session under `session_id`
and every scanned phone different from the stored phone, `POST /api/verify-scan`
fails without changing the store, so the session stays unverified; the answer is
`PhoneMismatch` (400) when both request fields are non-empty and the missing-data
400 body when one of them is empty. -/
theorem mismatched_scan_rejected (now : Nat) (s : Store) (session_id scanned_phone : String)
    (session : Session) (hget : s.get session_id = some session)
    (hpending : session.verified = false) (hne : scanned_phone ≠ session.phone) :
    verifyScan now s session_id scanned_phone =
        (if session_id = "" ∨ scanned_phone = "" then MissingData else PhoneMismatch, s) ∧
      (verifyScan now s session_id scanned_phone).2.get session_id = some session ∧
      (verifyScan now s session_id scanned_phone).1.success = false := by
  by_cases h : session_id = "" ∨ scanned_phone = ""
  · rw [verifyScan_missing now s _ _ h, if_pos h]
    exact ⟨rfl, hget, rfl⟩
  · have hne' : ¬ session.phone = scanned_phone := fun e => hne e.symm
    rw [verifyScan_present now s _ _ h, if_neg h, hget]
    simp [hpending, hne', hget, PhoneMismatch, Response.success]

theorem mismatched_scan_rejected_witness :
    verifyScan 1700000060000 pendingStore sampleId "+1234567891" =
        (if sampleId = "" ∨ "+1234567891" = "" then MissingData else PhoneMismatch,
          pendingStore) ∧
      (verifyScan 1700000060000 pendingStore sampleId "+1234567891").2.get sampleId =
        some pendingSession ∧
      (verifyScan 1700000060000 pendingStore sampleId "+1234567891").1.success = false :=
  mismatched_scan_rejected 1700000060000 pendingStore sampleId "+1234567891" pendingSession
    (by decide) (by decide) (by decide)

/-- Claim C5: when `POST /api/generate-qr` accepts a raw input and returns a session
id, a QR code and a phone, the QR code is the encoder's output on the JSON payload
of lines 69-74, whose `session_id` and `phone` fields are the returned id and the
returned normalized phone; `POST /api/verify-scan` with that id and that phone on
the store just produced succeeds and returns the same phone; the session then has
`verified = true` and `verifiedAt` equal to the time of the call, with the phone
and `createdAt` it was created with. -/
theorem issue_then_confirm_roundtrip (env : IssueEnv) (s : Store) (raw : String) (now : Nat)
    (sid qr phone e : String)
    (hissue : (generateQr env s raw).1 = .generated sid qr phone e) :
    sid = generateSessionId env.idTime env.rnd ∧
      phone = "+" ++ stripNonDigits raw ∧
      env.toDataURL (qrPayload sid phone env.stampTime) = .ok qr ∧
      qrPayload sid phone env.stampTime =
        "\x7b\"type\":\"phone_verification\",\"session_id\":\"" ++ sid ++
          "\",\"phone\":\"" ++ phone ++ "\",\"timestamp\":" ++ toString env.stampTime ++
          "\x7d" ∧
      (generateQr env s raw).2.get sid =
        some { phone := phone, verified := false, createdAt := env.createdTime,
               verifiedAt := none } ∧
      (verifyScan now (generateQr env s raw).2 sid phone).1 = .verifiedNow phone now ∧
      (verifyScan now (generateQr env s raw).2 sid phone).2.get sid =
        some { phone := phone, verified := true, createdAt := env.createdTime,
               verifiedAt := some now } := by
  by_cases hbad : raw.data.countP Char.isDigit < 8 ∨ 15 < raw.data.countP Char.isDigit
  · rw [generateQr_invalid env s raw hbad] at hissue
    cases hissue
  · have hlo : 8 ≤ raw.data.countP Char.isDigit := by omega
    have hhi : raw.data.countP Char.isDigit ≤ 15 := by omega
    rw [generateQr_valid env s raw hlo hhi] at hissue ⊢
    simp only at hissue ⊢
    cases hq : env.toDataURL (qrPayload (generateSessionId env.idTime env.rnd)
        ("+" ++ stripNonDigits raw) env.stampTime) with
    | error msg =>
      rw [hq] at hissue
      cases hissue
    | ok q =>
      rw [hq] at hissue
      simp only [Response.generated.injEq] at hissue
      obtain ⟨hsid, hqr, hphone, _⟩ := hissue
      subst hsid
      subst hphone
      subst hqr
      have hne : ¬ (generateSessionId env.idTime env.rnd = "" ∨
          "+" ++ stripNonDigits raw = "") := by
        rw [← falsy_iff, ← falsy_iff, falsy_generateSessionId, falsy_plus]
        simp
      refine ⟨rfl, rfl, hq, rfl, Store.get_set_same _ _ _, ?_, ?_⟩
      · rw [verifyScan_present _ _ _ _ hne, Store.get_set_same]
        simp
      · rw [verifyScan_present _ _ _ _ hne, Store.get_set_same]
        simp [Store.get_set_same]

theorem issue_then_confirm_roundtrip_witness :
    (generateQr sampleEnv [] "1234567890").1 =
        .generated sampleId
          "data:image/png;base64,\x7b\"type\":\"phone_verification\",\"session_id\":\"sess_1700000000000_k3j9x0q1z\",\"phone\":\"+1234567890\",\"timestamp\":1700000000000\x7d"
          "+1234567890" "30 минут" ∧
      qrPayload sampleId "+1234567890" 1700000000000 =
        "\x7b\"type\":\"phone_verification\",\"session_id\":\"sess_1700000000000_k3j9x0q1z\",\"phone\":\"+1234567890\",\"timestamp\":1700000000000\x7d" ∧
      (sampleId = generateSessionId sampleEnv.idTime sampleEnv.rnd ∧
        "+1234567890" = "+" ++ stripNonDigits "1234567890" ∧
        sampleEnv.toDataURL (qrPayload sampleId "+1234567890" sampleEnv.stampTime) =
          .ok "data:image/png;base64,\x7b\"type\":\"phone_verification\",\"session_id\":\"sess_1700000000000_k3j9x0q1z\",\"phone\":\"+1234567890\",\"timestamp\":1700000000000\x7d" ∧
        qrPayload sampleId "+1234567890" sampleEnv.stampTime =
          "\x7b\"type\":\"phone_verification\",\"session_id\":\"" ++ sampleId ++
            "\",\"phone\":\"" ++ "+1234567890" ++ "\",\"timestamp\":" ++
            toString sampleEnv.stampTime ++ "\x7d" ∧
        (generateQr sampleEnv [] "1234567890").2.get sampleId = some pendingSession ∧
        (verifyScan 1700000060000 (generateQr sampleEnv [] "1234567890").2 sampleId
            "+1234567890").1 = .verifiedNow "+1234567890" 1700000060000 ∧
        (verifyScan 1700000060000 (generateQr sampleEnv [] "1234567890").2 sampleId
            "+1234567890").2.get sampleId = some verifiedSession) :=
  ⟨by decide, by decide,
    issue_then_confirm_roundtrip sampleEnv [] "1234567890" 1700000060000 sampleId
      "data:image/png;base64,\x7b\"type\":\"phone_verification\",\"session_id\":\"sess_1700000000000_k3j9x0q1z\",\"phone\":\"+1234567890\",\"timestamp\":1700000000000\x7d"
      "+1234567890" "30 минут" (by decide)⟩

/-- Claim C6, as stated, fails: on a verified session an empty `scanned_phone` is
not answered with success but with the missing-data body of lines 138-141. -/
theorem empty_scan_on_verified_session_fails :
    verifiedStore.get sampleId = some verifiedSession ∧
      verifiedSession.verified = true ∧
      verifyScan 1700000120000 verifiedStore sampleId "" = (MissingData, verifiedStore) ∧
      MissingData.success = false := by
  decide

/-- Claim C6, amended: for every store whose session under `session_id` is verified
and every scanned phone, `POST /api/verify-scan` leaves the store unchanged; when
both request fields are non-empty it succeeds and returns the stored phone
whatever the scanned phone is, and when one is empty it answers the missing-data
400 body. In particular, if the store is the one a successful first confirmation
with these arguments produced, the repeated call returns the same phone, leaves
that store unchanged, and `verifiedAt` is still the time of the first call. -/
theorem confirm_idempotent_on_verified (now : Nat) (s : Store)
    (session_id scanned_phone : String) (session : Session)
    (hget : s.get session_id = some session) (hverified : session.verified = true) :
    verifyScan now s session_id scanned_phone =
        (if session_id = "" ∨ scanned_phone = "" then MissingData
          else .alreadyVerified session.phone, s) ∧
      (∀ (now0 : Nat) (s0 : Store) (phone : String) (t : Nat),
        verifyScan now0 s0 session_id scanned_phone = (.verifiedNow phone t, s) →
          verifyScan now s session_id scanned_phone = (.alreadyVerified phone, s) ∧
            session.phone = phone ∧ session.verifiedAt = some t) := by
  have hmain : verifyScan now s session_id scanned_phone =
      (if session_id = "" ∨ scanned_phone = "" then MissingData
        else .alreadyVerified session.phone, s) := by
    by_cases h : session_id = "" ∨ scanned_phone = ""
    · rw [verifyScan_missing now s _ _ h, if_pos h]
    · rw [verifyScan_present now s _ _ h, if_neg h, hget]
      simp [hverified]
  refine ⟨hmain, ?_⟩
  intro now0 s0 phone t hfirst
  by_cases h : session_id = "" ∨ scanned_phone = ""
  · rw [verifyScan_missing now0 s0 _ _ h] at hfirst
    cases hfirst
  · rw [verifyScan_present now0 s0 _ _ h] at hfirst
    rw [hmain, if_neg h]
    cases hg0 : s0.get session_id with
    | none =>
      rw [hg0] at hfirst
      cases hfirst
    | some x0 =>
      rw [hg0] at hfirst
      simp only at hfirst
      split_ifs at hfirst with hv hm
      · cases hfirst
      · cases hfirst
      · simp only [Prod.mk.injEq, Response.verifiedNow.injEq] at hfirst
        obtain ⟨⟨hp, ht⟩, hs⟩ := hfirst
        rw [← hs, Store.get_set_same] at hget
        cases hget
        simp [hp, ht]

theorem confirm_idempotent_on_verified_witness :
    verifyScan 1700000060000 pendingStore sampleId "+1234567890" =
        (.verifiedNow "+1234567890" 1700000060000, verifiedStore) ∧
      verifyScan 1700000120000 verifiedStore sampleId "+1234567890" =
        (.alreadyVerified "+1234567890", verifiedStore) ∧
      verifiedSession.verifiedAt = some 1700000060000 ∧
      verifyScan 1700000120000 verifiedStore sampleId "+1999999999" =
        (if sampleId = "" ∨ "+1999999999" = "" then MissingData
          else .alreadyVerified verifiedSession.phone, verifiedStore) :=
  have first : verifyScan 1700000060000 pendingStore sampleId "+1234567890" =
      (.verifiedNow "+1234567890" 1700000060000, verifiedStore) := by decide
  have again := (confirm_idempotent_on_verified 1700000120000 verifiedStore sampleId
    "+1234567890" verifiedSession (by decide) (by decide)).2 _ _ _ _ first
  ⟨first, again.1, again.2.2,
    (confirm_idempotent_on_verified 1700000120000 verifiedStore sampleId "+1999999999"
      verifiedSession (by decide) (by decide)).1⟩

/-- Claim C7, as stated, fails: for an id that is not a key of the store and an empty
`scanned_phone`, the handler answers 400 (missing data), not 404. -/
theorem empty_scan_on_unknown_id_is_not_404 :
    "sess_doesnotexist" ∉ pendingStore.map Prod.fst ∧
      verifyScan 1700000060000 pendingStore "sess_doesnotexist" "" =
        (.failure 400 "Отсутствуют необходимые данные", pendingStore) ∧
      Response.failure 400 "Отсутствуют необходимые данные" ≠ ConfirmSessionNotFound := by
  decide

/-- Claim C7, amended: for every store, every session id that is not a key of the
store and every scanned phone, `POST /api/verify-scan` fails and leaves the store
unchanged; the answer is `SessionNotFound` (404) when both request fields are
non-empty and the missing-data 400 body when one of them is empty. -/
theorem unknown_id_rejected (now : Nat) (s : Store) (session_id scanned_phone : String)
    (hkey : session_id ∉ s.map Prod.fst) :
    verifyScan now s session_id scanned_phone =
      (if session_id = "" ∨ scanned_phone = "" then MissingData else ConfirmSessionNotFound,
        s) := by
  by_cases h : session_id = "" ∨ scanned_phone = ""
  · rw [verifyScan_missing now s _ _ h, if_pos h]
  · rw [verifyScan_present now s _ _ h, if_neg h, (Store.get_eq_none_iff s session_id).mpr hkey]

theorem unknown_id_rejected_witness :
    "sess_doesnotexist" ∉ pendingStore.map Prod.fst ∧
      verifyScan 1700000060000 pendingStore "sess_doesnotexist" "+1234567890" =
        (if "sess_doesnotexist" = "" ∨ "+1234567890" = "" then MissingData
          else ConfirmSessionNotFound, pendingStore) :=
  ⟨by decide,
    unknown_id_rejected 1700000060000 pendingStore "sess_doesnotexist" "+1234567890"
      (by decide)⟩

/-! ## The phone field -/

/-- Claim C8, as stated, fails: when a sixteenth digit is typed after
`+123 456 789 012 345`, `formatPhoneInput` drops it, so the digits of the field
change and a text that `generateQRCode` would reject is sent as a 15-digit number. -/
theorem sixteenth_digit_is_dropped :
    stripNonDigits "+123 456 789 012 3456" = "1234567890123456" ∧
      formatPhoneInput "+123 456 789 012 3456" = "+123 456 789 012 345" ∧
      stripNonDigits (formatPhoneInput "+123 456 789 012 3456") = "123456789012345" ∧
      stripNonDigits (formatPhoneInput "+123 456 789 012 3456") ≠
        stripNonDigits "+123 456 789 012 3456" ∧
      generateQRCodeRequest "+123 456 789 012 3456" = none ∧
      generateQRCodeRequest (formatPhoneInput "+123 456 789 012 3456") =
        some "123456789012345" := by
  decide

/-- Claim C8, amended: for every text with at most 15 digit characters, the digits
extracted from the field after `formatPhoneInput` equal the digits extracted from
the text before it, so `generateQRCode` validates and sends the same digit string. -/
theorem formatting_is_cosmetic_up_to_fifteen_digits (value : String)
    (h : value.data.countP Char.isDigit ≤ 15) :
    stripNonDigits (formatPhoneInput value) = stripNonDigits value ∧
      generateQRCodeRequest (formatPhoneInput value) = generateQRCodeRequest value := by
  have hd : stripNonDigits (formatPhoneInput value) = stripNonDigits value := by
    rw [stripNonDigits_formatPhoneInput, String.ext_iff]
    have hlen := length_stripNonDigits value
    simp only [String.length] at hlen
    exact List.take_of_length_le (by omega)
  refine ⟨hd, ?_⟩
  unfold generateQRCodeRequest
  rw [hd]

theorem formatting_is_cosmetic_up_to_fifteen_digits_witness :
    "79123456789".data.countP Char.isDigit ≤ 15 ∧
      formatPhoneInput "79123456789" = "+791 234 567 89" ∧
      (stripNonDigits (formatPhoneInput "79123456789") = stripNonDigits "79123456789" ∧
        generateQRCodeRequest (formatPhoneInput "79123456789") =
          generateQRCodeRequest "79123456789") :=
  ⟨by decide, by decide,
    formatting_is_cosmetic_up_to_fifteen_digits "79123456789" (by decide)⟩

/-! ## The session record along a run -/

/-- Claim C9, as stated, fails: `generateSessionId` is not checked against the keys
of the map, so an `issue` in the same millisecond and with the same random suffix
as an earlier one overwrites the record under that id: its phone changes, and
`verified` goes from true back to false when it had been confirmed in between. -/
theorem colliding_issue_overwrites_session :
    (run [.issue sampleEnv "1234567890"]).get sampleId = some pendingSession ∧
      (step (run [.issue sampleEnv "1234567890"]) (.issue sampleEnv "87654321")).get sampleId =
        some { phone := "+87654321", verified := false, createdAt := 1700000000000,
               verifiedAt := none } ∧
      pendingSession.phone ≠ "+87654321" ∧
      (run [.issue sampleEnv "1234567890",
            .confirm 1700000000000 sampleId "+1234567890"]).get sampleId =
        some { phone := "+1234567890", verified := true, createdAt := 1700000000000,
               verifiedAt := some 1700000000000 } ∧
      (step (run [.issue sampleEnv "1234567890", .confirm 1700000000000 sampleId "+1234567890"])
          (.issue sampleEnv "87654321")).get sampleId =
        some { phone := "+87654321", verified := false, createdAt := 1700000000000,
               verifiedAt := none } := by
  decide

/-- Claim C9, amended: in every store reachable from the empty store by issue,
status, confirm and sweep steps, every session has `verifiedAt` set if and only
if `verified` is true; and no step whose generated session id, if it is an issue,
is not already a key of the store changes a session's phone or `createdAt` or
turns its `verified` from true back to false. -/
theorem session_record_invariant (acts : List Action) (a : Action)
    (hfresh : FreshId (run acts) a) :
    RecordInv (run acts) ∧
      ∀ (id : String) (x x' : Session), (run acts).get id = some x →
        (step (run acts) a).get id = some x' →
          x'.phone = x.phone ∧ x'.createdAt = x.createdAt ∧
            (x.verified = true → x'.verified = true) :=
  ⟨recordInv_run acts, fun id x x' hx hx' => step_keeps_record (run acts) a hfresh id x x' hx hx'⟩

theorem session_record_invariant_witness :
    FreshId (run [.issue sampleEnv "1234567890", .confirm 1700000060000 sampleId "+1234567890"])
        (.issue otherEnv "87654321") ∧
      (RecordInv
          (run [.issue sampleEnv "1234567890", .confirm 1700000060000 sampleId "+1234567890"]) ∧
        ∀ (id : String) (x x' : Session),
          (run [.issue sampleEnv "1234567890",
              .confirm 1700000060000 sampleId "+1234567890"]).get id = some x →
          (step (run [.issue sampleEnv "1234567890",
              .confirm 1700000060000 sampleId "+1234567890"])
            (.issue otherEnv "87654321")).get id = some x' →
            x'.phone = x.phone ∧ x'.createdAt = x.createdAt ∧
              (x.verified = true → x'.verified = true)) :=
  ⟨by decide, session_record_invariant _ _ (by decide)⟩

/-! ## The clean-up -/

/-- Claim C10: one run of the clean-up at time `now` removes exactly the sessions
older than the TTL. Afterwards every session in the store was there before with
the same fields and has `now - createdAt` at most the TTL; every session with
`now - createdAt > TTL` is gone; every session with `now - createdAt ≤ TTL` is
still there under its id, unchanged; and every row of the diagnostic listing at
`now` is a session that survives the run. -/
theorem sweep_removes_exactly_expired (now : Nat) (s : Store) (hs : s.WF) :
    (∀ (id : String) (x : Session), (sweep now s).get id = some x →
        ¬ ((now : Int) - (x.createdAt : Int) > TTL) ∧ s.get id = some x) ∧
      (∀ (id : String) (x : Session), s.get id = some x →
        (now : Int) - (x.createdAt : Int) > TTL → (sweep now s).get id = none) ∧
      (∀ (id : String) (x : Session), s.get id = some x →
        (now : Int) - (x.createdAt : Int) ≤ TTL → (sweep now s).get id = some x) ∧
      (∀ row ∈ listSessions now s, ∃ x : Session,
        s.get row.session_id = some x ∧ (sweep now s).get row.session_id = some x ∧
          row.phone = x.phone ∧ row.verified = x.verified ∧ row.created_at = x.createdAt ∧
          row.verified_at = x.verifiedAt) := by
  have hkeep : ∀ (id : String) (x : Session), s.get id = some x →
      (now : Int) - (x.createdAt : Int) ≤ TTL → (sweep now s).get id = some x := by
    intro id x hx hage
    rw [get_sweep now s hs, hx]
    have : expired now x = false := by simp [expired]; omega
    simp [this]
  refine ⟨?_, ?_, hkeep, ?_⟩
  · intro id x hx
    have hsx := get_sweep_some hx
    refine ⟨?_, hsx⟩
    intro hage
    rw [get_sweep now s hs, hsx] at hx
    have : expired now x = true := by simp [expired]; omega
    simp [this] at hx
  · intro id x hx hage
    rw [get_sweep now s hs, hx]
    have : expired now x = true := by simp [expired]; omega
    simp [this]
  · intro row hrow
    unfold listSessions at hrow
    rw [List.mem_map] at hrow
    obtain ⟨⟨k, x⟩, hmem, hrow⟩ := hrow
    rw [List.mem_filter] at hmem
    obtain ⟨hmem, hlive⟩ := hmem
    subst hrow
    have hget := Store.get_of_mem hs hmem
    refine ⟨x, hget, hkeep k x hget ?_, rfl, rfl, rfl, rfl⟩
    simp [live] at hlive
    omega

theorem sweep_removes_exactly_expired_witness :
    mixedStore.WF ∧
      sweep 1700001900000 mixedStore =
        [("sess_1700001000000_bbbbbbbbb",
          { phone := "+79123456789", verified := true, createdAt := 1700001000000,
            verifiedAt := some 1700001030000 })] ∧
      ((∀ (id : String) (x : Session), (sweep 1700001900000 mixedStore).get id = some x →
          ¬ (((1700001900000 : Nat) : Int) - (x.createdAt : Int) > TTL) ∧
            mixedStore.get id = some x) ∧
        (∀ (id : String) (x : Session), mixedStore.get id = some x →
          ((1700001900000 : Nat) : Int) - (x.createdAt : Int) > TTL →
            (sweep 1700001900000 mixedStore).get id = none) ∧
        (∀ (id : String) (x : Session), mixedStore.get id = some x →
          ((1700001900000 : Nat) : Int) - (x.createdAt : Int) ≤ TTL →
            (sweep 1700001900000 mixedStore).get id = some x) ∧
        (∀ row ∈ listSessions 1700001900000 mixedStore, ∃ x : Session,
          mixedStore.get row.session_id = some x ∧
            (sweep 1700001900000 mixedStore).get row.session_id = some x ∧
            row.phone = x.phone ∧ row.verified = x.verified ∧ row.created_at = x.createdAt ∧
            row.verified_at = x.verifiedAt)) :=
  ⟨by decide, by decide, sweep_removes_exactly_expired 1700001900000 mixedStore (by decide)⟩

end PhoneVerify
